import Mathlib

/-!
# RDStyle: palette derivation and bevel painting

A shallow embedding of `qrenderdoc/Styles/RDStyle/RDStyle.cpp`.

`RDStyle` customises a Qt style.  The functions of `RDStyle.cpp` are embedded
below (`polish`, `pixelMetric`, `drawComplexControl`, `outlineRole`,
`drawControl`, `drawPrimitive`).  The toolkit types they compute with
(`QColor`, `QBrush`, `QPalette`, `QRect`, `QPainter`, the style options) are
not part of the file; they are embedded after Qt 5 (`qcolor.cpp`,
`qpalette.cpp`, `qrect.h`), with these conventions:

* colour components are the 16 bit integers `QColor` stores;
* `qreal` arithmetic inside `QColor::toHsv` / `QColor::toRgb` is carried out
  exactly (as fractions of integers) and rounded with `qRound`;
* an `int` is an integer in the 32 bit range; the sums and differences of
  coordinates wrap around in two's complement (`wrapInt`);
* a `QPainter` is a state (current pen, render hints, save stack) together
  with the list of shapes painted so far, oldest first;
* the base class `RDTweakedNativeStyle`, `QCommonStyle::drawControl` and
  `getLuminance` (declared in `Code/QRDUtils.h`) are parameters.
-/

namespace RDStyle

/-! ## QColor -/

/-- The colour specifications `QColor::Spec` that occur (`Cmyk` and `Hsl` are
never produced by this file). -/
inductive Spec where
  | Invalid
  | Rgb
  | Hsv
  deriving DecidableEq

/-- The largest `unsigned short`. -/
def USHRT_MAX : Nat := 65535

/-- A `QColor`: its specification and the four 16 bit components of the union
`ct`.  `c1`, `c2`, `c3` are `red, green, blue` under `Rgb` and
`hue, saturation, value` under `Hsv` (the fields overlay each other in the
union). -/
structure QColor where
  cspec : Spec
  alpha : Nat
  c1 : Nat
  c2 : Nat
  c3 : Nat
  deriving DecidableEq

namespace QColor

/-- The default constructed colour: `QColor::invalidate`. -/
def invalid : QColor := ⟨Spec.Invalid, USHRT_MAX, 0, 0, 0⟩

/-- The constructor `QColor(int r, int g, int b, int a)`; `a` defaults to 255 in C++. -/
def ofRgba (r g b a : Int) : QColor :=
  if 0 ≤ r ∧ r ≤ 255 ∧ 0 ≤ g ∧ g ≤ 255 ∧ 0 ≤ b ∧ b ≤ 255 ∧ 0 ≤ a ∧ a ≤ 255 then
    ⟨Spec.Rgb, a.toNat * 0x101, r.toNat * 0x101, g.toNat * 0x101, b.toNat * 0x101⟩
  else
    ⟨Spec.Invalid, 0, 0, 0, 0⟩

/-- The colour `QColor(Qt::black)`. -/
def black : QColor := ⟨Spec.Rgb, USHRT_MAX, 0, 0, 0⟩

/-- The colour `QColor(Qt::white)`. -/
def white : QColor := ⟨Spec.Rgb, USHRT_MAX, USHRT_MAX, USHRT_MAX, USHRT_MAX⟩

/-- The colour `QColor(Qt::darkBlue)`. -/
def darkBlue : QColor := ⟨Spec.Rgb, USHRT_MAX, 0, 0, 128 * 0x101⟩

/-- The colour `QColor(Qt::blue)`. -/
def blue : QColor := ⟨Spec.Rgb, USHRT_MAX, 0, 0, USHRT_MAX⟩

/-- The colour `QColor(Qt::magenta)`. -/
def magenta : QColor := ⟨Spec.Rgb, USHRT_MAX, USHRT_MAX, 0, USHRT_MAX⟩

/-- The function `qRound` applied to the fraction `num / den` (`den > 0`): the
nearest integer, halves rounded up. -/
def qRound (num : Int) (den : Int) : Int :=
  (2 * num + den) / (2 * den)

/-- The method `QColor::toHsv`. -/
def toHsv (c : QColor) : QColor :=
  match c.cspec with
  | Spec.Invalid => c
  | Spec.Hsv => c
  | Spec.Rgb =>
    let r : Int := c.c1
    let g : Int := c.c2
    let b : Int := c.c3
    -- r, g, b, max, min and delta are kept multiplied by USHRT_MAX
    let max : Int := Max.max r (Max.max g b)
    let min : Int := Min.min r (Min.min g b)
    let delta : Int := max - min
    let value : Int := qRound max 1
    if delta = 0 then
      -- achromatic case, hue is undefined
      ⟨Spec.Hsv, c.alpha, USHRT_MAX, 0, value.toNat⟩
    else
      -- chromatic case
      let saturation : Int := qRound (delta * USHRT_MAX) max
      -- hue, multiplied by delta
      let hue : Int :=
        if r = max then g - b
        else if g = max then 2 * delta + (b - r)
        else 4 * delta + (r - g)
      let hue := hue * 60
      let hue := if hue < 0 then hue + 360 * delta else hue
      ⟨Spec.Hsv, c.alpha, (qRound (hue * 100) delta).toNat, saturation.toNat, value.toNat⟩

/-- The method `QColor::toRgb`. -/
def toRgb (c : QColor) : QColor :=
  match c.cspec with
  | Spec.Invalid => c
  | Spec.Rgb => c
  | Spec.Hsv =>
    if c.c2 = 0 ∨ c.c1 = USHRT_MAX then
      -- achromatic case
      ⟨Spec.Rgb, c.alpha, c.c3, c.c3, c.c3⟩
    else
      -- chromatic case; h = hn / 6000, s = sat / USHRT_MAX, v = value / USHRT_MAX
      let hn : Int := if c.c1 = 36000 then 0 else c.c1
      let sat : Int := c.c2
      let value : Int := c.c3
      let i : Int := hn / 6000
      -- f = fn / 6000
      let fn : Int := hn - 6000 * i
      let m : Int := USHRT_MAX
      -- p = v * (1 - s), as a fraction of (USHRT_MAX * USHRT_MAX)
      let p : Int := qRound (value * (m - sat)) m
      if i % 2 = 1 then
        -- q = v * (1 - s * f)
        let q : Int := qRound (value * (m * 6000 - sat * fn)) (m * 6000)
        if i = 1 then ⟨Spec.Rgb, c.alpha, q.toNat, value.toNat, p.toNat⟩
        else if i = 3 then ⟨Spec.Rgb, c.alpha, p.toNat, q.toNat, value.toNat⟩
        else if i = 5 then ⟨Spec.Rgb, c.alpha, value.toNat, p.toNat, q.toNat⟩
        else ⟨Spec.Rgb, c.alpha, 0, 0, 0⟩
      else
        -- t = v * (1 - s * (1 - f))
        let t : Int := qRound (value * (m * 6000 - sat * (6000 - fn))) (m * 6000)
        if i = 0 then ⟨Spec.Rgb, c.alpha, value.toNat, t.toNat, p.toNat⟩
        else if i = 2 then ⟨Spec.Rgb, c.alpha, p.toNat, value.toNat, t.toNat⟩
        else if i = 4 then ⟨Spec.Rgb, c.alpha, t.toNat, p.toNat, value.toNat⟩
        else ⟨Spec.Rgb, c.alpha, 0, 0, 0⟩

/-- The method `QColor::convertTo`. -/
def convertTo (c : QColor) (colorSpec : Spec) : QColor :=
  if colorSpec = c.cspec then c
  else
    match colorSpec with
    | Spec.Rgb => c.toRgb
    | Spec.Hsv => c.toHsv
    | Spec.Invalid => invalid

/-- The method `QColor::red`. -/
def red (c : QColor) : Nat := c.toRgb.c1 >>> 8

/-- The method `QColor::green`. -/
def green (c : QColor) : Nat := c.toRgb.c2 >>> 8

/-- The method `QColor::blue`, named apart from the colour `QColor.blue`. -/
def blueOf (c : QColor) : Nat := c.toRgb.c3 >>> 8

/-- The method `QColor::alpha`. -/
def alphaOf (c : QColor) : Nat := c.alpha >>> 8

/-- The method `QColor::hsvSaturation` (also `QColor::saturation`). -/
def hsvSaturation (c : QColor) : Nat := c.toHsv.c2 >>> 8

/-- The method `QColor::getHsv`, returning `(h, s, v)`. -/
def getHsv (c : QColor) : Int × Int × Int :=
  let k := c.toHsv
  ((if k.c1 = USHRT_MAX then -1 else ((k.c1 / 100 : Nat) : Int)),
   ((k.c2 >>> 8 : Nat) : Int), ((k.c3 >>> 8 : Nat) : Int))

/-- The method `QColor::setHsv(h, s, v, a)` (`a` defaults to 255 in C++); the colour it is called on
is overwritten, so only the result is returned. -/
def setHsv (h s v a : Int) : QColor :=
  if h < -1 ∨ s < 0 ∨ 255 < s ∨ v < 0 ∨ 255 < v ∨ a < 0 ∨ 255 < a then
    invalid
  else
    ⟨Spec.Hsv, a.toNat * 0x101,
      if h = -1 then USHRT_MAX else (h % 360).toNat * 100,
      s.toNat * 0x101, v.toNat * 0x101⟩

/-- The body of `QColor::darker` for a factor of at least 100. -/
def darkerCore (c : QColor) (factor : Nat) : QColor :=
  let hsv := c.toHsv
  let v := (hsv.c3 * 100) / factor
  ({ hsv with c3 := v % 65536 } : QColor).convertTo c.cspec

/-- The body of `QColor::lighter` for a factor of at least 100. -/
def lighterCore (c : QColor) (factor : Nat) : QColor :=
  let hsv := c.toHsv
  let s : Int := hsv.c2
  let v : Nat := ((factor * hsv.c3) % 4294967296) / 100
  if USHRT_MAX < v then
    -- overflow... adjust saturation
    let s := s - (v - USHRT_MAX : Nat)
    let s := if s < 0 then 0 else s
    ({ hsv with c2 := s.toNat, c3 := USHRT_MAX } : QColor).convertTo c.cspec
  else
    ({ hsv with c2 := s.toNat, c3 := v } : QColor).convertTo c.cspec

/-- The method `QColor::darker`. -/
def darker (c : QColor) (factor : Int) : QColor :=
  if factor ≤ 0 then c
  else if factor < 100 then lighterCore c (10000 / factor).toNat
  else darkerCore c factor.toNat

/-- The method `QColor::lighter`. -/
def lighter (c : QColor) (factor : Int) : QColor :=
  if factor ≤ 0 then c
  else if factor < 100 then darkerCore c (10000 / factor).toNat
  else lighterCore c factor.toNat

end QColor

/-! ## QBrush and QPalette -/

/-- The two brush styles that occur: `Qt::NoBrush` and `Qt::SolidPattern`. -/
inductive BrushStyle where
  | NoBrush
  | SolidPattern
  deriving DecidableEq

/-- A `QBrush`: a colour and a style. -/
structure QBrush where
  color : QColor
  style : BrushStyle
  deriving DecidableEq

namespace QBrush

/-- The default constructed brush `QBrush()`: black, `Qt::NoBrush`. -/
def null : QBrush := ⟨QColor.black, BrushStyle.NoBrush⟩

/-- The constructor `QBrush(const QColor &)`: a solid brush of that colour. -/
def ofColor (c : QColor) : QBrush := ⟨c, BrushStyle.SolidPattern⟩

end QBrush

/-- The enumeration `QPalette::ColorGroup` (`Normal` is another name of
`Active`; `NColorGroups` is the number of stored groups, 3). -/
inductive ColorGroup where
  | Active
  | Disabled
  | Inactive
  | Current
  | All
  deriving DecidableEq

/-- The enumeration `QPalette::ColorRole`, in the order of its values
`0 .. 19` (Qt 5.0 to 5.11, where `NColorRoles = ToolTipText + 1`). -/
inductive ColorRole where
  | WindowText
  | Button
  | Light
  | Midlight
  | Dark
  | Mid
  | Text
  | BrightText
  | ButtonText
  | Base
  | Window
  | Shadow
  | Highlight
  | HighlightedText
  | Link
  | LinkVisited
  | AlternateBase
  | NoRole
  | ToolTipBase
  | ToolTipText
  deriving DecidableEq

/-- The constant `QPalette::NColorRoles`. -/
def NColorRoles : Nat := 20

namespace ColorRole

/-- The value of a role as an `int`. -/
def toNat : ColorRole → Nat
  | WindowText => 0
  | Button => 1
  | Light => 2
  | Midlight => 3
  | Dark => 4
  | Mid => 5
  | Text => 6
  | BrightText => 7
  | ButtonText => 8
  | Base => 9
  | Window => 10
  | Shadow => 11
  | Highlight => 12
  | HighlightedText => 13
  | Link => 14
  | LinkVisited => 15
  | AlternateBase => 16
  | NoRole => 17
  | ToolTipBase => 18
  | ToolTipText => 19

/-- The cast `(QPalette::ColorRole)i`, for `i < NColorRoles`. -/
def ofIndex : Nat → ColorRole
  | 0 => WindowText
  | 1 => Button
  | 2 => Light
  | 3 => Midlight
  | 4 => Dark
  | 5 => Mid
  | 6 => Text
  | 7 => BrightText
  | 8 => ButtonText
  | 9 => Base
  | 10 => Window
  | 11 => Shadow
  | 12 => Highlight
  | 13 => HighlightedText
  | 14 => Link
  | 15 => LinkVisited
  | 16 => AlternateBase
  | 17 => NoRole
  | 18 => ToolTipBase
  | _ => ToolTipText

end ColorRole

/-- A `QPalette`: the brushes `d->br[group][role]` (only the rows `Active`,
`Disabled` and `Inactive` are storage) and `data.current_group`. -/
structure QPalette where
  br : ColorGroup → ColorRole → QBrush
  current_group : ColorGroup

namespace QPalette

/-- The state after `QPalette::init`: default brushes, current group `Active`. -/
def init : QPalette := ⟨fun _ _ => QBrush.null, ColorGroup.Active⟩

/-- The method `QPalette::brush(ColorGroup, ColorRole)`. -/
def brush (pal : QPalette) (gr : ColorGroup) (cr : ColorRole) : QBrush :=
  match gr with
  | ColorGroup.Current => pal.br pal.current_group cr
  | ColorGroup.All => pal.br ColorGroup.Active cr
  | g => pal.br g cr

/-- The method `QPalette::brush(ColorRole)`: the brush of the current group. -/
def brushCurrent (pal : QPalette) (cr : ColorRole) : QBrush :=
  pal.brush ColorGroup.Current cr

/-- The method `QPalette::color(ColorGroup, ColorRole)`. -/
def color (pal : QPalette) (gr : ColorGroup) (cr : ColorRole) : QColor :=
  (pal.brush gr cr).color

/-- The assignment `d->br[cg][cr] = b`. -/
def store (pal : QPalette) (cg : ColorGroup) (cr : ColorRole) (b : QBrush) : QPalette :=
  { pal with br := fun g r => if g = cg ∧ r = cr then b else pal.br g r }

/-- The method `QPalette::setBrush(ColorGroup, ColorRole, const QBrush &)`. -/
def setBrush (pal : QPalette) (cg : ColorGroup) (cr : ColorRole) (b : QBrush) : QPalette :=
  match cg with
  | ColorGroup.All =>
    ((pal.store ColorGroup.Active cr b).store ColorGroup.Disabled cr b).store
      ColorGroup.Inactive cr b
  | ColorGroup.Current => pal.store pal.current_group cr b
  | g => pal.store g cr b

/-- The method `QPalette::setColor(ColorGroup, ColorRole, const QColor &)`. -/
def setColorIn (pal : QPalette) (cg : ColorGroup) (cr : ColorRole) (c : QColor) : QPalette :=
  pal.setBrush cg cr (QBrush.ofColor c)

/-- The method `QPalette::setColor(ColorRole, const QColor &)`: all groups. -/
def setColor (pal : QPalette) (cr : ColorRole) (c : QColor) : QPalette :=
  pal.setColorIn ColorGroup.All cr c

/-- The helper `qt_mix_colors` of `qpalette.cpp`. -/
def qt_mix_colors (a b : QColor) : QColor :=
  QColor.ofRgba ((a.red + b.red : Nat) / 2 : Nat) ((a.green + b.green : Nat) / 2 : Nat)
    ((a.blueOf + b.blueOf : Nat) / 2 : Nat) ((a.alphaOf + b.alphaOf : Nat) / 2 : Nat)

/-- The method `QPalette::setColorGroup` with all nineteen brushes. -/
def setColorGroupFull (pal : QPalette) (cg : ColorGroup)
    (foreground button light dark mid text bright_text base alternate_base window midlight
      button_text shadow highlight highlighted_text link link_visited toolTipBase
      toolTipText : QBrush) : QPalette :=
  let pal := pal.setBrush cg ColorRole.WindowText foreground
  let pal := pal.setBrush cg ColorRole.Button button
  let pal := pal.setBrush cg ColorRole.Light light
  let pal := pal.setBrush cg ColorRole.Dark dark
  let pal := pal.setBrush cg ColorRole.Mid mid
  let pal := pal.setBrush cg ColorRole.Text text
  let pal := pal.setBrush cg ColorRole.BrightText bright_text
  let pal := pal.setBrush cg ColorRole.Base base
  let pal := pal.setBrush cg ColorRole.AlternateBase alternate_base
  let pal := pal.setBrush cg ColorRole.Window window
  let pal := pal.setBrush cg ColorRole.Midlight midlight
  let pal := pal.setBrush cg ColorRole.ButtonText button_text
  let pal := pal.setBrush cg ColorRole.Shadow shadow
  let pal := pal.setBrush cg ColorRole.Highlight highlight
  let pal := pal.setBrush cg ColorRole.HighlightedText highlighted_text
  let pal := pal.setBrush cg ColorRole.Link link
  let pal := pal.setBrush cg ColorRole.LinkVisited link_visited
  let pal := pal.setBrush cg ColorRole.ToolTipBase toolTipBase
  pal.setBrush cg ColorRole.ToolTipText toolTipText

/-- The method `QPalette::setColorGroup` with nine brushes. -/
def setColorGroup (pal : QPalette) (cg : ColorGroup)
    (foreground button light dark mid text bright_text base window : QBrush) : QPalette :=
  let alt_base := QBrush.ofColor (qt_mix_colors base.color button.color)
  let mid_light := QBrush.ofColor (qt_mix_colors button.color light.color)
  let toolTipBase := QColor.ofRgba 255 255 220 255
  let toolTipText := QColor.ofRgba 0 0 0 255
  pal.setColorGroupFull cg foreground button light dark mid text bright_text base alt_base
    window mid_light text (QBrush.ofColor QColor.black) (QBrush.ofColor QColor.darkBlue)
    (QBrush.ofColor QColor.white) (QBrush.ofColor QColor.blue)
    (QBrush.ofColor QColor.magenta) (QBrush.ofColor toolTipBase) (QBrush.ofColor toolTipText)

/-- The constructor `QPalette(windowText, window, light, dark, mid, text, base)`. -/
def ofColors (windowText window light dark mid text base : QColor) : QPalette :=
  let windowBrush := QBrush.ofColor window
  let lightBrush := QBrush.ofColor light
  init.setColorGroup ColorGroup.All (QBrush.ofColor windowText) windowBrush lightBrush
    (QBrush.ofColor dark) (QBrush.ofColor mid) (QBrush.ofColor text) lightBrush
    (QBrush.ofColor base) windowBrush

/-- The copy assignment `QPalette::operator=`: the palette assigned to takes
the brushes and the current group of `other`. -/
def assign (_self other : QPalette) : QPalette := other

end QPalette

/-! ## RDStyle::polish -/

/-- Modelled from the spec: the enumeration `RDStyle::ColorScheme` is declared
in `RDStyle.h`; the spec names its two hard-coded schemes, light and dark. -/
inductive ColorScheme where
  | Light
  | Dark
  deriving DecidableEq

/-- The expression `int(s * 0.5)`: the product is exact in `double`, the cast
truncates toward zero. -/
def halfTrunc (s : Int) : Int := Int.tdiv s 2

/-- The colour stored for the `Disabled` group from the (possibly
desaturated) inactive colour `col`: the last four lines of the loop body of
`RDStyle::polish`. -/
def disabledOf (getLuminance : QColor → ℚ) (col : QColor) : QColor :=
  if getLuminance col > 0.5 then col.darker 125 else col.lighter 125

/-- The colour `col` of the loop body of `RDStyle::polish` after the optional
desaturation step. -/
def desaturated (role : ColorRole) (col : QColor) : QColor :=
  if role ≠ ColorRole.Link then
    let hsv := col.getHsv
    QColor.setHsv hsv.1 0 hsv.2.2 255
  else col

/-- One iteration of the loop of `RDStyle::polish`, for the index `i`. -/
def polishRole (getLuminance : QColor → ℚ) (pal : QPalette) (i : Nat) : QPalette :=
  let role := ColorRole.ofIndex i
  -- skip tooltip roles entirely
  if role = ColorRole.ToolTipBase ∨ role = ColorRole.ToolTipText then pal
  else
    -- with the exception of link text, the disabled version is desaturated
    let col := pal.color ColorGroup.Inactive role
    let col := desaturated role col
    -- the disabled version is closer to mid grey than inactive
    if getLuminance col > 0.5 then
      pal.setColorIn ColorGroup.Disabled role (col.darker 125)
    else
      pal.setColorIn ColorGroup.Disabled role (col.lighter 125)

/-- The palette held by `pal` in `RDStyle::polish` when the loop over the
colour roles is entered (lines 45 to 104), for a style constructed with the
scheme `m_Scheme`. -/
def polishColors (m_Scheme : ColorScheme) (pal : QPalette) : QPalette :=
  let window :=
    if m_Scheme = ColorScheme.Light then QColor.ofRgba 225 225 225 255
    else QColor.ofRgba 45 55 60 255
  let windowText :=
    if m_Scheme = ColorScheme.Light then QColor.black else QColor.ofRgba 225 225 225 255
  let base :=
    if m_Scheme = ColorScheme.Light then QColor.white else QColor.ofRgba 22 27 30 255
  let highlight :=
    if m_Scheme = ColorScheme.Light then QColor.ofRgba 80 110 160 255
    else QColor.ofRgba 100 130 200 255
  let tooltip :=
    if m_Scheme = ColorScheme.Light then QColor.ofRgba 250 245 200 255
    else QColor.ofRgba 70 70 65 255
  let light := window.lighter 150
  let mid := window.darker 150
  let dark := mid.darker 150
  let text := windowText
  let pal := pal.assign (QPalette.ofColors windowText window light dark mid text base)
  let pal := pal.setColor ColorRole.Shadow QColor.black
  let pal :=
    if m_Scheme = ColorScheme.Light then pal.setColor ColorRole.AlternateBase (base.darker 110)
    else pal.setColor ColorRole.AlternateBase (base.lighter 110)
  let pal := pal.setColor ColorRole.ToolTipBase tooltip
  let pal := pal.setColor ColorRole.ToolTipText text
  let pal := pal.setColor ColorRole.Highlight highlight
  -- inactive highlight is desaturated
  let hsv := highlight.getHsv
  let highlight := QColor.setHsv hsv.1 (halfTrunc hsv.2.1) hsv.2.2 255
  let pal := pal.setColorIn ColorGroup.Inactive ColorRole.Highlight highlight
  let pal := pal.setColor ColorRole.HighlightedText QColor.white
  -- links are based on the highlight colour
  let link := highlight.lighter 105
  let pal := pal.setColor ColorRole.Link link
  -- visited links are desaturated
  let hsv := link.getHsv
  let linkVisited := QColor.setHsv hsv.1 0 hsv.2.2 255
  pal.setColor ColorRole.LinkVisited linkVisited

/-- The palette `RDStyle::polish(QPalette &pal)` leaves in `pal`, for a style
constructed with the scheme `m_Scheme`: the colours of `polishColors`, then the
loop `for(int i = 0; i < QPalette::NColorRoles; i++)`. -/
def polish (getLuminance : QColor → ℚ) (m_Scheme : ColorScheme) (pal : QPalette) : QPalette :=
  (List.range NColorRoles).foldl (polishRole getLuminance) (polishColors m_Scheme pal)

/-! ## Geometry, paths and the painter -/

/-- A `QRect`: the corners `x1, y1` (left, top) and `x2, y2` (right, bottom),
both inside the rectangle. -/
structure QRect where
  x1 : Int
  y1 : Int
  x2 : Int
  y2 : Int
  deriving DecidableEq

/-- The `int` a 32 bit two's complement addition or subtraction leaves when its
exact result is `x`. -/
def wrapInt (x : Int) : Int := (x + 2147483648) % 4294967296 - 2147483648

/-- The constant `INT_MAX`. -/
def INT_MAX : Int := 2147483647

/-- The constant `INT_MIN`. -/
def INT_MIN : Int := -2147483648

namespace QRect

/-- The method `QRect::left`. -/
def left (r : QRect) : Int := r.x1

/-- The method `QRect::top`. -/
def top (r : QRect) : Int := r.y1

/-- The method `QRect::right`. -/
def right (r : QRect) : Int := r.x2

/-- The method `QRect::bottom`. -/
def bottom (r : QRect) : Int := r.y2

/-- The method `QRect::width`. -/
def width (r : QRect) : Int := wrapInt (wrapInt (r.x2 - r.x1) + 1)

/-- The method `QRect::height`. -/
def height (r : QRect) : Int := wrapInt (wrapInt (r.y2 - r.y1) + 1)

/-- The method `QRect::setLeft`. -/
def setLeft (r : QRect) (pos : Int) : QRect := { r with x1 := pos }

/-- The method `QRect::setTop`. -/
def setTop (r : QRect) (pos : Int) : QRect := { r with y1 := pos }

/-- The method `QRect::setRight`. -/
def setRight (r : QRect) (pos : Int) : QRect := { r with x2 := pos }

/-- The method `QRect::setBottom`. -/
def setBottom (r : QRect) (pos : Int) : QRect := { r with y2 := pos }

/-- The method `QRect::adjusted`. -/
def adjusted (r : QRect) (xp1 yp1 xp2 yp2 : Int) : QRect :=
  ⟨wrapInt (r.x1 + xp1), wrapInt (r.y1 + yp1), wrapInt (r.x2 + xp2), wrapInt (r.y2 + yp2)⟩

/-- The method `QRect::translated`. -/
def translated (r : QRect) (dx dy : Int) : QRect :=
  ⟨wrapInt (r.x1 + dx), wrapInt (r.y1 + dy), wrapInt (r.x2 + dx), wrapInt (r.y2 + dy)⟩

/-- No edge of `r` lies outside `outer`. -/
def within (r outer : QRect) : Prop :=
  outer.left ≤ r.left ∧ outer.top ≤ r.top ∧ r.right ≤ outer.right ∧ r.bottom ≤ outer.bottom

instance (r outer : QRect) : Decidable (r.within outer) := by
  unfold within; infer_instance

end QRect

/-- A `QPointF`. -/
structure QPointF where
  xp : ℚ
  yp : ℚ
  deriving DecidableEq

/-- A `QRectF`: top left corner, width and height. -/
structure QRectF where
  xp : ℚ
  yp : ℚ
  w : ℚ
  h : ℚ
  deriving DecidableEq

/-- The conversion `QRectF(const QRect &)`. -/
def QRectF.ofRect (r : QRect) : QRectF := ⟨r.x1, r.y1, r.width, r.height⟩

/-- A rounded rectangle of a painter path: the rectangle and the two radii. -/
structure RoundedRect where
  rect : QRectF
  xRadius : ℚ
  yRadius : ℚ
  deriving DecidableEq

/-- A `QPainterPath`, as the rounded rectangles added to it. -/
structure QPainterPath where
  elements : List RoundedRect
  deriving DecidableEq

namespace QPainterPath

/-- The default constructed, empty path. -/
def empty : QPainterPath := ⟨[]⟩

/-- The method `QPainterPath::addRoundedRect(rect, xRadius, yRadius)`. -/
def addRoundedRect (path : QPainterPath) (rect : QRect) (xRadius yRadius : ℚ) : QPainterPath :=
  ⟨path.elements ++ [⟨QRectF.ofRect rect, xRadius, yRadius⟩]⟩

/-- The method `QPainterPath::translated(const QPointF &)`. -/
def translated (path : QPainterPath) (offset : QPointF) : QPainterPath :=
  ⟨path.elements.map fun e =>
    { e with rect := { e.rect with xp := e.rect.xp + offset.xp, yp := e.rect.yp + offset.yp } }⟩

end QPainterPath

/-- A `QPen` built by `QPen(const QBrush &, qreal width)`. -/
structure QPen where
  brush : QBrush
  width : ℚ
  deriving DecidableEq

/-- The part of a painter's state that `save` and `restore` keep: the pen,
the brush and the `QPainter::Antialiasing` render hint. -/
structure PainterState where
  pen : QPen
  brush : QBrush
  antialiasing : Bool
  deriving DecidableEq

/-- What a painter has been asked to paint. -/
inductive Painted where
  /-- The call `fillPath(path, brush)` under the painter state `st`. -/
  | FillPath (path : QPainterPath) (brush : QBrush) (st : PainterState)
  /-- The call `drawPath(path)` under the painter state `st`: the path is
  outlined with the pen of `st`. -/
  | DrawPath (path : QPainterPath) (st : PainterState)
  deriving DecidableEq

/-- A `QPainter`: its current state, the states pushed by `save`, and what it
has painted, oldest first. -/
structure QPainter where
  state : PainterState
  saved : List PainterState
  painted : List Painted
  deriving DecidableEq

namespace QPainter

/-- The method `QPainter::save`. -/
def save (p : QPainter) : QPainter := { p with saved := p.state :: p.saved }

/-- The method `QPainter::restore`; without a saved state nothing changes. -/
def restore (p : QPainter) : QPainter :=
  match p.saved with
  | [] => p
  | st :: rest => { p with state := st, saved := rest }

/-- The call `QPainter::setRenderHint(QPainter::Antialiasing)`. -/
def setRenderHintAntialiasing (p : QPainter) : QPainter :=
  { p with state := { p.state with antialiasing := true } }

/-- The method `QPainter::setPen(const QPen &)`. -/
def setPen (p : QPainter) (pen : QPen) : QPainter :=
  { p with state := { p.state with pen := pen } }

/-- The method `QPainter::fillPath`. -/
def fillPath (p : QPainter) (path : QPainterPath) (brush : QBrush) : QPainter :=
  { p with painted := p.painted ++ [Painted.FillPath path brush p.state] }

/-- The method `QPainter::drawPath`. -/
def drawPath (p : QPainter) (path : QPainterPath) : QPainter :=
  { p with painted := p.painted ++ [Painted.DrawPath path p.state] }

end QPainter

/-! ## Style options and enumerations -/

/-- The flag `QStyle::State_Sunken`. -/
def State_Sunken : Nat := 0x00000004

/-- The flag `QStyle::State_HasFocus`. -/
def State_HasFocus : Nat := 0x00000100

/-- The flag `QStyle::State_AutoRaise`. -/
def State_AutoRaise : Nat := 0x00001000

/-- The sub-control `QStyle::SC_ToolButton`. -/
def SC_ToolButton : Nat := 0x00000001

/-- The sub-control `QStyle::SC_ToolButtonMenu`. -/
def SC_ToolButtonMenu : Nat := 0x00000002

/-- The feature `QStyleOptionToolButton::HasMenu`. -/
def HasMenu : Nat := 0x10

/-- The enumeration `QStyle::PixelMetric`: the two metrics the file names, and
the remaining ones by value. -/
inductive PixelMetric where
  | PM_ButtonShiftHorizontal
  | PM_ButtonShiftVertical
  | PM_Other (value : Nat)
  deriving DecidableEq

/-- The enumeration `QStyle::ComplexControl`: the control the file names, and
the remaining ones by value. -/
inductive ComplexControl where
  | CC_ToolButton
  | CC_Other (value : Nat)
  deriving DecidableEq

/-- The enumeration `QStyle::ControlElement`: the elements the file names, and
the remaining ones by value. -/
inductive ControlElement where
  | CE_PushButton
  | CE_PushButtonBevel
  | CE_PushButtonLabel
  | CE_ToolButtonLabel
  | CE_Other (value : Nat)
  deriving DecidableEq

/-- The enumeration `QStyle::PrimitiveElement`: the element the file names,
and the remaining ones by value. -/
inductive PrimitiveElement where
  | PE_IndicatorArrowDown
  | PE_Other (value : Nat)
  deriving DecidableEq

/-- A widget, known to the style only through its pointer. -/
structure QWidget where
  id : Nat
  deriving DecidableEq

/-- The object behind a `const QStyleOption *`: the fields of `QStyleOption`
(`state`, `rect`, `palette`), of `QStyleOptionComplex` (`subControls`,
`activeSubControls`) and of `QStyleOptionToolButton` (`features`) this file
reads.  A pointer to a base class and the `qstyleoption_cast` of it denote the
same object, so the cast is the identity. -/
structure QStyleOption where
  state : Nat
  rect : QRect
  palette : QPalette
  subControls : Nat
  activeSubControls : Nat
  features : Nat

/-- The methods of the base class `RDTweakedNativeStyle` (and of its ancestor
`QCommonStyle`) that `RDStyle` calls.  They are defined outside this file and
are arbitrary here; a draw method maps the painter it is given to the painter
it leaves. -/
structure RDTweakedNativeStyle where
  pixelMetric : PixelMetric → Option QStyleOption → Option QWidget → Int
  subControlRect : ComplexControl → QStyleOption → Nat → Option QWidget → QRect
  drawComplexControl : ComplexControl → QStyleOption → QPainter → Option QWidget → QPainter
  drawPrimitive : PrimitiveElement → QStyleOption → QPainter → Option QWidget → QPainter
  drawControl : ControlElement → QStyleOption → QPainter → Option QWidget → QPainter
  commonDrawControl : ControlElement → QStyleOption → QPainter → Option QWidget → QPainter

/-! ## RDStyle: metrics and painting -/

/-- The method `RDStyle::pixelMetric`; `opt` is `none` for a null pointer. -/
def pixelMetric (base : RDTweakedNativeStyle) (metric : PixelMetric)
    (opt : Option QStyleOption) (widget : Option QWidget) : Int :=
  if metric = PixelMetric.PM_ButtonShiftHorizontal ∨
      metric = PixelMetric.PM_ButtonShiftVertical then
    match opt with
    | some o =>
      if o.state &&& State_AutoRaise = 0 then 1
      else base.pixelMetric metric opt widget
    | none => base.pixelMetric metric opt widget
  else base.pixelMetric metric opt widget

/-- The method `RDStyle::subControlRect`, inherited from the base class. -/
def subControlRect (base : RDTweakedNativeStyle) (control : ComplexControl)
    (opt : QStyleOption) (sc : Nat) (widget : Option QWidget) : QRect :=
  base.subControlRect control opt sc widget

/-- The method `RDStyle::drawPrimitive`. -/
def drawPrimitive (base : RDTweakedNativeStyle) (element : PrimitiveElement)
    (opt : QStyleOption) (p : QPainter) (widget : Option QWidget) : QPainter :=
  base.drawPrimitive element opt p widget

/-- The method `RDStyle::outlineRole`. -/
def outlineRole (m_Scheme : ColorScheme) : ColorRole :=
  if m_Scheme = ColorScheme.Light then ColorRole.Dark else ColorRole.Light

/-- The branch `control == CE_PushButtonBevel` of `RDStyle::drawControl`. -/
def drawPushButtonBevel (base : RDTweakedNativeStyle) (m_Scheme : ColorScheme)
    (opt : QStyleOption) (p : QPainter) (widget : Option QWidget) : QPainter :=
  let outlinePen : QPen := ⟨opt.palette.brushCurrent (outlineRole m_Scheme), 1⟩
  let outlinePen : QPen :=
    if opt.state &&& State_HasFocus ≠ 0 then ⟨opt.palette.brushCurrent ColorRole.Highlight, 2⟩
    else outlinePen
  let p := p.save
  let p := p.setRenderHintAntialiasing
  let xshift := pixelMetric base PixelMetric.PM_ButtonShiftHorizontal (some opt) widget
  let yshift := pixelMetric base PixelMetric.PM_ButtonShiftVertical (some opt) widget
  let rect := opt.rect.adjusted 1 1 (-1) (-1)
  if opt.state &&& State_Sunken ≠ 0 then
    let rect := rect.setLeft (wrapInt (rect.left + xshift))
    let rect := rect.setTop (wrapInt (rect.top + yshift))
    let path := QPainterPath.empty.addRoundedRect rect 1 1
    let p := p.fillPath path (opt.palette.brushCurrent ColorRole.Midlight)
    let p := p.setPen outlinePen
    let p := p.drawPath (path.translated ⟨1 / 2, 1 / 2⟩)
    p.restore
  else
    let rect := rect.setRight (wrapInt (rect.right - xshift))
    let rect := rect.setBottom (wrapInt (rect.bottom - yshift))
    let path := QPainterPath.empty.addRoundedRect rect 1 1
    let p := p.setPen ⟨opt.palette.brushCurrent ColorRole.Shadow, 1⟩
    let p := p.drawPath (path.translated ⟨1, 1⟩)
    let p := p.fillPath path (opt.palette.brushCurrent ColorRole.Button)
    let p := p.setPen outlinePen
    let p := p.drawPath (path.translated ⟨1 / 2, 1 / 2⟩)
    p.restore

/-- The method `RDStyle::drawControl`. -/
def drawControl (base : RDTweakedNativeStyle) (m_Scheme : ColorScheme)
    (control : ControlElement) (opt : QStyleOption) (p : QPainter)
    (widget : Option QWidget) : QPainter :=
  if control = ControlElement.CE_PushButton then
    let p := drawPushButtonBevel base m_Scheme opt p widget
    base.commonDrawControl ControlElement.CE_PushButtonLabel opt p widget
  else if control = ControlElement.CE_PushButtonBevel then
    drawPushButtonBevel base m_Scheme opt p widget
  else
    base.drawControl control opt p widget

/-- The method `RDStyle::drawComplexControl`. -/
def drawComplexControl (base : RDTweakedNativeStyle) (m_Scheme : ColorScheme)
    (control : ComplexControl) (opt : QStyleOption) (p : QPainter)
    (widget : Option QWidget) : QPainter :=
  -- let the tweaked native style render autoraise tool buttons
  if control = ComplexControl.CC_ToolButton ∧ opt.state &&& State_AutoRaise = 0 then
    let p := drawControl base m_Scheme ControlElement.CE_PushButtonBevel opt p widget
    let toolbutton := opt
    let labelTextIcon : QStyleOption :=
      { toolbutton with rect := subControlRect base control opt SC_ToolButton widget }
    -- draw the label text/icon
    let p := drawControl base m_Scheme ControlElement.CE_ToolButtonLabel labelTextIcon p widget
    -- draw the menu arrow, if there is one
    if toolbutton.subControls &&& SC_ToolButtonMenu ≠ 0 ∨ toolbutton.features &&& HasMenu ≠ 0 then
      let menu : QStyleOption :=
        { toolbutton with rect := subControlRect base control opt SC_ToolButtonMenu widget }
      drawPrimitive base PrimitiveElement.PE_IndicatorArrowDown menu p widget
    else p
  else
    base.drawComplexControl control opt p widget

/-! ## Fragments of the painting code and sample inputs -/

/-- The rectangle `rect` of the sunken branch of `RDStyle::drawControl`
(lines 225, 229 and 230), from the option's rectangle and the two shifts. -/
def sunkenBevelRect (optRect : QRect) (xshift yshift : Int) : QRect :=
  let rect := optRect.adjusted 1 1 (-1) (-1)
  let rect := rect.setLeft (wrapInt (rect.left + xshift))
  rect.setTop (wrapInt (rect.top + yshift))

/-- The rectangle `rect` of the raised branch of `RDStyle::drawControl`
(lines 225, 242 and 243), from the option's rectangle and the two shifts. -/
def raisedBevelRect (optRect : QRect) (xshift yshift : Int) : QRect :=
  let rect := optRect.adjusted 1 1 (-1) (-1)
  let rect := rect.setRight (wrapInt (rect.right - xshift))
  rect.setBottom (wrapInt (rect.bottom - yshift))

/-- The paths filled by `fillPath` among painted shapes, oldest first. -/
def filledPaths (l : List Painted) : List QPainterPath :=
  l.filterMap fun x =>
    match x with
    | Painted.FillPath path _ _ => some path
    | Painted.DrawPath _ _ => none

/-- A base style to evaluate the style on: every metric is 0, every
sub-control rectangle is the option's rectangle, and no method paints. -/
def sampleBase : RDTweakedNativeStyle :=
  { pixelMetric := fun _ _ _ => 0
    subControlRect := fun _ opt _ _ => opt.rect
    drawComplexControl := fun _ _ p _ => p
    drawPrimitive := fun _ _ p _ => p
    drawControl := fun _ _ p _ => p
    commonDrawControl := fun _ _ p _ => p }

/-- An option to evaluate the style on: the rectangle with corners (0, 0) and
(9, 9), the flags `state`, a palette polished under the light scheme. -/
def sampleOption (state : Nat) : QStyleOption :=
  { state := state
    rect := ⟨0, 0, 9, 9⟩
    palette := polish (fun _ => 0) ColorScheme.Light QPalette.init
    subControls := SC_ToolButton
    activeSubControls := 0
    features := 0 }

/-- An option at the edge of the `int` range: `sampleOption State_Sunken` with
the rectangle of corners (2147483646, 0) and (2147483647, 9). -/
def edgeOption : QStyleOption :=
  { sampleOption State_Sunken with rect := ⟨2147483646, 0, 2147483647, 9⟩ }

/-- A painter to evaluate the style on: nothing painted, nothing saved. -/
def samplePainter : QPainter :=
  { state := ⟨⟨QBrush.ofColor QColor.black, 1⟩, QBrush.null, false⟩
    saved := []
    painted := [] }

/-! ## Lemmas on the loop of `polish` -/

theorem setColorIn_disabled (pal : QPalette) (cr : ColorRole) (c : QColor) :
    pal.setColorIn ColorGroup.Disabled cr c = pal.store ColorGroup.Disabled cr (QBrush.ofColor c) := rfl

theorem polishRole_eq (getLuminance : QColor → ℚ) (pal : QPalette) (i : Nat) :
    polishRole getLuminance pal i =
      if ColorRole.ofIndex i = ColorRole.ToolTipBase ∨ ColorRole.ofIndex i = ColorRole.ToolTipText
      then pal
      else pal.store ColorGroup.Disabled (ColorRole.ofIndex i)
        (QBrush.ofColor (disabledOf getLuminance
          (desaturated (ColorRole.ofIndex i) (pal.color ColorGroup.Inactive (ColorRole.ofIndex i))))) := by
  unfold polishRole disabledOf
  simp only [setColorIn_disabled]
  split
  · rfl
  · split <;> rfl

theorem foldl_polishRole_current (getLuminance : QColor → ℚ) (l : List Nat) (pal : QPalette) :
    (l.foldl (polishRole getLuminance) pal).current_group = pal.current_group := by
  induction l generalizing pal with
  | nil => rfl
  | cons i l ih =>
    rw [List.foldl_cons, ih, polishRole_eq]
    split <;> rfl

theorem foldl_polishRole_br (getLuminance : QColor → ℚ) (l : List Nat) (pal : QPalette)
    (g : ColorGroup) (r : ColorRole) :
    (l.foldl (polishRole getLuminance) pal).br g r =
      if g = ColorGroup.Disabled ∧ r ≠ ColorRole.ToolTipBase ∧ r ≠ ColorRole.ToolTipText ∧
          r ∈ l.map ColorRole.ofIndex
      then QBrush.ofColor (disabledOf getLuminance (desaturated r (pal.br ColorGroup.Inactive r).color))
      else pal.br g r := by
  induction l generalizing pal with
  | nil => simp
  | cons i l ih =>
    rw [List.foldl_cons, ih, polishRole_eq]
    by_cases ht : ColorRole.ofIndex i = ColorRole.ToolTipBase ∨
        ColorRole.ofIndex i = ColorRole.ToolTipText
    · rw [if_pos ht]
      by_cases hg : g = ColorGroup.Disabled
      · by_cases hr : r = ColorRole.ofIndex i
        · subst hr
          rcases ht with ht | ht <;> simp [ht]
        · simp [hg, hr]
      · simp [hg]
    · rw [if_neg ht]
      simp only [QPalette.store, QPalette.color, QPalette.brush]
      by_cases hg : g = ColorGroup.Disabled
      · by_cases hr : r = ColorRole.ofIndex i
        · subst hr
          have h1 : ¬ ColorRole.ofIndex i = ColorRole.ToolTipBase := fun h => ht (Or.inl h)
          have h2 : ¬ ColorRole.ofIndex i = ColorRole.ToolTipText := fun h => ht (Or.inr h)
          simp [hg, h1, h2]
        · simp [hg, hr]
      · simp [hg]

theorem mem_roles (r : ColorRole) : r ∈ (List.range NColorRoles).map ColorRole.ofIndex := by
  cases r <;> decide

theorem polish_br (getLuminance : QColor → ℚ) (s : ColorScheme) (p : QPalette)
    (g : ColorGroup) (r : ColorRole) :
    (polish getLuminance s p).br g r =
      if g = ColorGroup.Disabled ∧ r ≠ ColorRole.ToolTipBase ∧ r ≠ ColorRole.ToolTipText
      then QBrush.ofColor (disabledOf getLuminance
        (desaturated r ((polishColors s p).br ColorGroup.Inactive r).color))
      else (polishColors s p).br g r := by
  unfold polish
  rw [foldl_polishRole_br]
  simp only [mem_roles r, and_true]

theorem polish_current (getLuminance : QColor → ℚ) (s : ColorScheme) (p : QPalette) :
    (polish getLuminance s p).current_group = ColorGroup.Active := by
  unfold polish
  rw [foldl_polishRole_current]
  cases s <;> rfl

theorem polishColors_input (s : ColorScheme) (p1 p2 : QPalette) :
    polishColors s p1 = polishColors s p2 := rfl

theorem polishColors_current (s : ColorScheme) (p : QPalette) :
    (polishColors s p).current_group = ColorGroup.Active := by
  cases s <;> rfl

theorem polish_color (getLuminance : QColor → ℚ) (s : ColorScheme) (p : QPalette)
    (g : ColorGroup) (r : ColorRole) :
    (polish getLuminance s p).color g r =
      if (g = ColorGroup.Disabled) ∧ r ≠ ColorRole.ToolTipBase ∧ r ≠ ColorRole.ToolTipText
      then disabledOf getLuminance (desaturated r ((polishColors s p).color ColorGroup.Inactive r))
      else (polishColors s p).color g r := by
  unfold QPalette.color QPalette.brush
  cases g <;> simp only [polish_br, polish_current, polishColors_current] <;>
    first | rfl | (split <;> rfl)

theorem darker_125 (k : QColor) : k.darker 125 = k.darkerCore 125 := rfl

theorem lighter_125 (k : QColor) : k.lighter 125 = k.lighterCore 125 := rfl

theorem darkerCore_hsv (a c1 c2 c3 factor : Nat) :
    QColor.darkerCore ⟨Spec.Hsv, a, c1, c2, c3⟩ factor =
      ⟨Spec.Hsv, a, c1, c2, (c3 * 100 / factor) % 65536⟩ := rfl

theorem lighterCore_hsv (a c1 c2 c3 factor : Nat) :
    QColor.lighterCore ⟨Spec.Hsv, a, c1, c2, c3⟩ factor =
      if USHRT_MAX < factor * c3 % 4294967296 / 100 then
        ⟨Spec.Hsv, a, c1,
          (if (c2 : Int) - ((factor * c3 % 4294967296 / 100 - USHRT_MAX : Nat) : Int) < 0 then 0
            else (c2 : Int) - ((factor * c3 % 4294967296 / 100 - USHRT_MAX : Nat) : Int)).toNat,
          USHRT_MAX⟩
      else ⟨Spec.Hsv, a, c1, c2, factor * c3 % 4294967296 / 100⟩ := by
  unfold QColor.lighterCore
  simp only [QColor.toHsv, QColor.convertTo, Int.toNat_ofNat]
  split <;> rfl

theorem clamp_zero (n : Nat) :
    (if (((0 : Nat) : Int)) - (n : Int) < 0 then (0 : Int) else ((0 : Nat) : Int) - (n : Int)).toNat
      = 0 := by
  by_cases h : (((0 : Nat) : Int)) - (n : Int) < 0
  · rw [if_pos h]; rfl
  · rw [if_neg h]; omega

theorem achromatic_hsv (a c1 c3 : Nat) (d : QColor) (h : d = ⟨Spec.Hsv, a, c1, 0, c3⟩) :
    d.hsvSaturation = 0 ∧ d.red = d.green ∧ d.green = d.blueOf := by
  subst h
  simp [QColor.hsvSaturation, QColor.red, QColor.green, QColor.blueOf, QColor.toRgb,
    QColor.toHsv]

/-- Darkening or lightening by 125 keeps an HSV colour of saturation 0 (or the
invalid colour) achromatic. -/
theorem achromatic_step (k : QColor) (h2 : k.c2 = 0)
    (hk : k.cspec = Spec.Hsv ∨ k = QColor.invalid) (d : QColor)
    (hd : d = k.darker 125 ∨ d = k.lighter 125) :
    d.hsvSaturation = 0 ∧ d.red = d.green ∧ d.green = d.blueOf := by
  rcases hk with hk | hk
  · obtain ⟨sp, a, c1, c2, c3⟩ := k
    simp only at hk h2
    subst hk h2
    rcases hd with hd | hd
    · rw [darker_125, darkerCore_hsv] at hd
      exact achromatic_hsv _ _ _ d hd
    · rw [lighter_125, lighterCore_hsv] at hd
      split at hd
      · refine achromatic_hsv a c1 USHRT_MAX d ?_
        rw [hd, clamp_zero]
      · exact achromatic_hsv _ _ _ d hd
  · subst hk
    rcases hd with hd | hd <;> subst hd <;> exact ⟨rfl, rfl, rfl⟩

theorem desaturated_shape (role : ColorRole) (hr : role ≠ ColorRole.Link) (c : QColor) :
    (desaturated role c).c2 = 0 ∧
      ((desaturated role c).cspec = Spec.Hsv ∨ desaturated role c = QColor.invalid) := by
  unfold desaturated
  rw [if_pos hr]
  simp only [QColor.setHsv]
  split
  · exact ⟨rfl, Or.inr rfl⟩
  · exact ⟨by simp, Or.inl rfl⟩

theorem disabledOf_cases (getLuminance : QColor → ℚ) (col : QColor) :
    disabledOf getLuminance col = col.darker 125 ∨ disabledOf getLuminance col = col.lighter 125 := by
  unfold disabledOf
  split
  · exact Or.inl rfl
  · exact Or.inr rfl

theorem polish_color_keep (getLuminance : QColor → ℚ) (s : ColorScheme) (p : QPalette)
    (g : ColorGroup) (r : ColorRole)
    (h : g ≠ ColorGroup.Disabled ∨ r = ColorRole.ToolTipBase ∨ r = ColorRole.ToolTipText) :
    (polish getLuminance s p).color g r = (polishColors s QPalette.init).color g r := by
  rw [polish_color, if_neg, polishColors_input s p QPalette.init]
  rintro ⟨h1, h2, h3⟩
  rcases h with h | h | h
  · exact h h1
  · exact h2 h
  · exact h3 h

theorem polish_color_disabled (getLuminance : QColor → ℚ) (s : ColorScheme) (p : QPalette)
    (r : ColorRole) (h2 : r ≠ ColorRole.ToolTipBase) (h3 : r ≠ ColorRole.ToolTipText) :
    (polish getLuminance s p).color ColorGroup.Disabled r =
      disabledOf getLuminance
        (desaturated r ((polishColors s QPalette.init).color ColorGroup.Inactive r)) := by
  rw [polish_color, if_pos ⟨rfl, h2, h3⟩, polishColors_input s p QPalette.init]

/-! ## Lemmas on the bevel -/

theorem drawPushButtonBevel_painted (base : RDTweakedNativeStyle) (m_Scheme : ColorScheme)
    (opt : QStyleOption) (p : QPainter) (widget : Option QWidget) :
    (drawPushButtonBevel base m_Scheme opt p widget).painted =
      p.painted ++
        (if opt.state &&& State_Sunken ≠ 0 then
          [Painted.FillPath
              (QPainterPath.empty.addRoundedRect (sunkenBevelRect opt.rect
                (pixelMetric base PixelMetric.PM_ButtonShiftHorizontal (some opt) widget)
                (pixelMetric base PixelMetric.PM_ButtonShiftVertical (some opt) widget)) 1 1)
              (opt.palette.brushCurrent ColorRole.Midlight)
              ⟨p.state.pen, p.state.brush, true⟩,
            Painted.DrawPath
              ((QPainterPath.empty.addRoundedRect (sunkenBevelRect opt.rect
                (pixelMetric base PixelMetric.PM_ButtonShiftHorizontal (some opt) widget)
                (pixelMetric base PixelMetric.PM_ButtonShiftVertical (some opt) widget)) 1
                1).translated ⟨1 / 2, 1 / 2⟩)
              ⟨if opt.state &&& State_HasFocus ≠ 0 then
                  ⟨opt.palette.brushCurrent ColorRole.Highlight, 2⟩
                else ⟨opt.palette.brushCurrent (outlineRole m_Scheme), 1⟩, p.state.brush, true⟩]
        else
          [Painted.DrawPath
              ((QPainterPath.empty.addRoundedRect (raisedBevelRect opt.rect
                (pixelMetric base PixelMetric.PM_ButtonShiftHorizontal (some opt) widget)
                (pixelMetric base PixelMetric.PM_ButtonShiftVertical (some opt) widget)) 1
                1).translated ⟨1, 1⟩)
              ⟨⟨opt.palette.brushCurrent ColorRole.Shadow, 1⟩, p.state.brush, true⟩,
            Painted.FillPath
              (QPainterPath.empty.addRoundedRect (raisedBevelRect opt.rect
                (pixelMetric base PixelMetric.PM_ButtonShiftHorizontal (some opt) widget)
                (pixelMetric base PixelMetric.PM_ButtonShiftVertical (some opt) widget)) 1 1)
              (opt.palette.brushCurrent ColorRole.Button)
              ⟨⟨opt.palette.brushCurrent ColorRole.Shadow, 1⟩, p.state.brush, true⟩,
            Painted.DrawPath
              ((QPainterPath.empty.addRoundedRect (raisedBevelRect opt.rect
                (pixelMetric base PixelMetric.PM_ButtonShiftHorizontal (some opt) widget)
                (pixelMetric base PixelMetric.PM_ButtonShiftVertical (some opt) widget)) 1
                1).translated ⟨1 / 2, 1 / 2⟩)
              ⟨if opt.state &&& State_HasFocus ≠ 0 then
                  ⟨opt.palette.brushCurrent ColorRole.Highlight, 2⟩
                else ⟨opt.palette.brushCurrent (outlineRole m_Scheme), 1⟩,
                p.state.brush, true⟩]) := by
  unfold drawPushButtonBevel sunkenBevelRect raisedBevelRect
  by_cases hs : opt.state &&& State_Sunken ≠ 0
  · simp only [if_pos hs]
    by_cases hf : opt.state &&& State_HasFocus ≠ 0
    · simp [if_pos hf, QPainter.restore, QPainter.save, QPainter.drawPath, QPainter.setPen,
        QPainter.fillPath, QPainter.setRenderHintAntialiasing]
    · simp [if_neg hf, QPainter.restore, QPainter.save, QPainter.drawPath, QPainter.setPen,
        QPainter.fillPath, QPainter.setRenderHintAntialiasing]
  · simp only [if_neg hs]
    by_cases hf : opt.state &&& State_HasFocus ≠ 0
    · simp [if_pos hf, QPainter.restore, QPainter.save, QPainter.drawPath, QPainter.setPen,
        QPainter.fillPath, QPainter.setRenderHintAntialiasing]
    · simp [if_neg hf, QPainter.restore, QPainter.save, QPainter.drawPath, QPainter.setPen,
        QPainter.fillPath, QPainter.setRenderHintAntialiasing]

theorem drawControl_bevel (base : RDTweakedNativeStyle) (m_Scheme : ColorScheme)
    (opt : QStyleOption) (p : QPainter) (widget : Option QWidget) :
    drawControl base m_Scheme ControlElement.CE_PushButtonBevel opt p widget =
      drawPushButtonBevel base m_Scheme opt p widget := rfl

/-! ## Claims on `RDStyle::polish` -/

/-- C1: `polish` derives the palette from the colour scheme alone: under one
scheme any two incoming palettes are left equal, and polishing a polished
palette leaves it unchanged. -/
theorem polish_ignores_input (getLuminance : QColor → ℚ) (m_Scheme : ColorScheme)
    (p1 p2 : QPalette) :
    polish getLuminance m_Scheme p1 = polish getLuminance m_Scheme p2 ∧
      polish getLuminance m_Scheme (polish getLuminance m_Scheme p1) =
        polish getLuminance m_Scheme p1 :=
  ⟨rfl, rfl⟩

/-- C3: after `polish`, for either scheme and every role other than `Link`,
`ToolTipBase` and `ToolTipText`, the `Disabled` colour is the darkened or
lightened desaturation `setHsv(h, 0, v)` of the `Inactive` colour and is
achromatic (HSV saturation 0, red = green = blue); the `Disabled` `Link`
colour is the darkened or lightened `Inactive` `Link` colour itself, without
the desaturation, and keeps a saturation other than 0. -/
theorem polish_disabled_desaturated (getLuminance : QColor → ℚ) (m_Scheme : ColorScheme)
    (pal : QPalette) (role : ColorRole) :
    (role ≠ ColorRole.Link → role ≠ ColorRole.ToolTipBase → role ≠ ColorRole.ToolTipText →
      (polish getLuminance m_Scheme pal).color ColorGroup.Disabled role =
          disabledOf getLuminance (QColor.setHsv
            ((polish getLuminance m_Scheme pal).color ColorGroup.Inactive role).getHsv.1 0
            ((polish getLuminance m_Scheme pal).color ColorGroup.Inactive role).getHsv.2.2 255) ∧
        ((polish getLuminance m_Scheme pal).color ColorGroup.Disabled role).hsvSaturation = 0 ∧
        ((polish getLuminance m_Scheme pal).color ColorGroup.Disabled role).red =
          ((polish getLuminance m_Scheme pal).color ColorGroup.Disabled role).green ∧
        ((polish getLuminance m_Scheme pal).color ColorGroup.Disabled role).green =
          ((polish getLuminance m_Scheme pal).color ColorGroup.Disabled role).blueOf) ∧
    (polish getLuminance m_Scheme pal).color ColorGroup.Disabled ColorRole.Link =
        disabledOf getLuminance
          ((polish getLuminance m_Scheme pal).color ColorGroup.Inactive ColorRole.Link) ∧
    ((polish getLuminance m_Scheme pal).color ColorGroup.Disabled ColorRole.Link).hsvSaturation
      ≠ 0 := by
  have hin : ∀ r, (polish getLuminance m_Scheme pal).color ColorGroup.Inactive r =
      (polishColors m_Scheme pal).color ColorGroup.Inactive r := by
    intro r
    rw [polish_color]
    exact if_neg (fun h => by cases h.1)
  have hlink : (polish getLuminance m_Scheme pal).color ColorGroup.Disabled ColorRole.Link =
      disabledOf getLuminance
        ((polish getLuminance m_Scheme pal).color ColorGroup.Inactive ColorRole.Link) := by
    rw [hin, polish_color, if_pos ⟨rfl, by decide, by decide⟩]
    rfl
  refine ⟨?_, hlink, ?_⟩
  · intro h1 h2 h3
    have hd : (polish getLuminance m_Scheme pal).color ColorGroup.Disabled role =
        disabledOf getLuminance
          (desaturated role ((polishColors m_Scheme pal).color ColorGroup.Inactive role)) := by
      rw [polish_color, if_pos ⟨rfl, h2, h3⟩]
    refine ⟨?_, ?_⟩
    · rw [hd, hin]
      unfold desaturated
      rw [if_pos h1]
    · rw [hd]
      have hs := desaturated_shape role h1
        ((polishColors m_Scheme pal).color ColorGroup.Inactive role)
      exact achromatic_step _ hs.1 hs.2 _ ((disabledOf_cases getLuminance _).imp id id)
  · rw [hlink, hin]
    rcases disabledOf_cases getLuminance
      ((polishColors m_Scheme pal).color ColorGroup.Inactive ColorRole.Link) with h | h <;>
      rw [h, polishColors_input m_Scheme pal QPalette.init] <;> cases m_Scheme <;> decide

/-- C3, at a concrete input: the light scheme, the role `Window`. -/
theorem polish_disabled_desaturated_witness :
    ((polish (fun _ => 0) ColorScheme.Light QPalette.init).color ColorGroup.Disabled
        ColorRole.Window).hsvSaturation = 0 ∧
      ((polish (fun _ => 0) ColorScheme.Light QPalette.init).color ColorGroup.Disabled
        ColorRole.Window).red =
      ((polish (fun _ => 0) ColorScheme.Light QPalette.init).color ColorGroup.Disabled
        ColorRole.Window).green :=
  ⟨((polish_disabled_desaturated (fun _ => 0) ColorScheme.Light QPalette.init
      ColorRole.Window).1 (by decide) (by decide) (by decide)).2.1,
   ((polish_disabled_desaturated (fun _ => 0) ColorScheme.Light QPalette.init
      ColorRole.Window).1 (by decide) (by decide) (by decide)).2.2.1⟩

/-- C4, evaluated at the light scheme and the role `WindowText`: the `Inactive`
colour is black, the `Disabled` colour equals the desaturated `Inactive`
colour `col` (lightening black leaves it black), so whatever `getLuminance`
is, the `Disabled` colour is not closer to mid grey than `col`. -/
theorem polish_disabled_black_not_closer (getLuminance : QColor → ℚ) (pal : QPalette) :
    (polish getLuminance ColorScheme.Light pal).color ColorGroup.Inactive ColorRole.WindowText =
        QColor.black ∧
    (polish getLuminance ColorScheme.Light pal).color ColorGroup.Disabled ColorRole.WindowText =
        desaturated ColorRole.WindowText
          ((polish getLuminance ColorScheme.Light pal).color ColorGroup.Inactive
            ColorRole.WindowText) ∧
    ¬ (|getLuminance ((polish getLuminance ColorScheme.Light pal).color ColorGroup.Disabled
            ColorRole.WindowText) - 1 / 2| <
        |getLuminance (desaturated ColorRole.WindowText
          ((polish getLuminance ColorScheme.Light pal).color ColorGroup.Inactive
            ColorRole.WindowText)) - 1 / 2|) := by
  have hin : (polish getLuminance ColorScheme.Light pal).color ColorGroup.Inactive
      ColorRole.WindowText = QColor.black := by
    rw [polish_color_keep _ _ _ _ _ (Or.inl (by decide))]
    decide
  have hd : (polish getLuminance ColorScheme.Light pal).color ColorGroup.Disabled
      ColorRole.WindowText = desaturated ColorRole.WindowText QColor.black := by
    rw [polish_color_disabled _ _ _ _ (by decide) (by decide)]
    rcases disabledOf_cases getLuminance (desaturated ColorRole.WindowText
      ((polishColors ColorScheme.Light QPalette.init).color ColorGroup.Inactive
        ColorRole.WindowText))
      with h | h <;> rw [h] <;> decide
  refine ⟨hin, ?_, ?_⟩
  · rw [hd, hin]
  · rw [hd, hin]
    exact lt_irrefl _

/-- C5: after `polish` the `Active` `Highlight` colour is the scheme's
hard-coded highlight (RGB 80,110,160 for `Light`, 100,130,200 otherwise), and
the `Inactive` `Highlight` colour has, as read by `getHsv`, the same hue and
value with the saturation `int(s * 0.5)` of the active saturation `s`: the
triples (217, 64, 160) and (222, 64, 200). -/
theorem polish_highlight (getLuminance : QColor → ℚ) (m_Scheme : ColorScheme) (pal : QPalette) :
    (polish getLuminance m_Scheme pal).color ColorGroup.Active ColorRole.Highlight =
        (if m_Scheme = ColorScheme.Light then QColor.ofRgba 80 110 160 255
          else QColor.ofRgba 100 130 200 255) ∧
    ((polish getLuminance m_Scheme pal).color ColorGroup.Inactive ColorRole.Highlight).getHsv =
      (((polish getLuminance m_Scheme pal).color ColorGroup.Active ColorRole.Highlight).getHsv.1,
        halfTrunc
          ((polish getLuminance m_Scheme pal).color ColorGroup.Active ColorRole.Highlight).getHsv.2.1,
        ((polish getLuminance m_Scheme pal).color ColorGroup.Active ColorRole.Highlight).getHsv.2.2) ∧
    ((polish getLuminance m_Scheme pal).color ColorGroup.Inactive ColorRole.Highlight).getHsv =
      (if m_Scheme = ColorScheme.Light then (217, 64, 160) else (222, 64, 200)) := by
  rw [polish_color_keep _ _ _ ColorGroup.Active _ (Or.inl (by decide)),
    polish_color_keep _ _ _ ColorGroup.Inactive _ (Or.inl (by decide))]
  cases m_Scheme <;> decide

/-- C6 as stated fails: under the light scheme the `Active` `Link` colour is
not the `Active` `Highlight` colour lightened by 105; even the red channels
of the two differ. -/
theorem polish_link_not_active_highlight :
    (polish (fun _ => 0) ColorScheme.Light QPalette.init).color ColorGroup.Active ColorRole.Link ≠
        ((polish (fun _ => 0) ColorScheme.Light QPalette.init).color ColorGroup.Active
          ColorRole.Highlight).lighter 105 ∧
      ((polish (fun _ => 0) ColorScheme.Light QPalette.init).color ColorGroup.Active
          ColorRole.Link).red ≠
        (((polish (fun _ => 0) ColorScheme.Light QPalette.init).color ColorGroup.Active
          ColorRole.Highlight).lighter 105).red := by
  rw [polish_color_keep _ _ _ ColorGroup.Active ColorRole.Link (Or.inl (by decide)),
    polish_color_keep _ _ _ ColorGroup.Active ColorRole.Highlight (Or.inl (by decide))]
  decide

/-- C6, amended: after `polish`, for either scheme, the `Active` `Link` colour
equals the `Inactive` (desaturated) `Highlight` colour lightened with factor
105. -/
theorem polish_link (getLuminance : QColor → ℚ) (m_Scheme : ColorScheme) (pal : QPalette) :
    (polish getLuminance m_Scheme pal).color ColorGroup.Active ColorRole.Link =
      ((polish getLuminance m_Scheme pal).color ColorGroup.Inactive ColorRole.Highlight).lighter
        105 := by
  rw [polish_color_keep _ _ _ ColorGroup.Active _ (Or.inl (by decide)),
    polish_color_keep _ _ _ ColorGroup.Inactive _ (Or.inl (by decide))]
  cases m_Scheme <;> decide

/-- C7: after `polish`, in every colour group (`Active`, `Inactive`,
`Disabled`, and so also `Current` and `All`), the `ToolTipBase` colour is the
scheme's hard-coded tooltip colour (RGB 250,245,200 for `Light`, 70,70,65
otherwise) and the `ToolTipText` colour is the scheme's window-text colour
(black for `Light`, RGB 225,225,225 otherwise), which is the `Active`
`WindowText` colour: the disabled pass leaves the tooltip roles alone. -/
theorem polish_tooltip (getLuminance : QColor → ℚ) (m_Scheme : ColorScheme) (pal : QPalette)
    (group : ColorGroup) :
    (polish getLuminance m_Scheme pal).color group ColorRole.ToolTipBase =
        (if m_Scheme = ColorScheme.Light then QColor.ofRgba 250 245 200 255
          else QColor.ofRgba 70 70 65 255) ∧
    (polish getLuminance m_Scheme pal).color group ColorRole.ToolTipText =
        (if m_Scheme = ColorScheme.Light then QColor.black
          else QColor.ofRgba 225 225 225 255) ∧
    (polish getLuminance m_Scheme pal).color group ColorRole.ToolTipText =
        (polish getLuminance m_Scheme pal).color ColorGroup.Active ColorRole.WindowText := by
  rw [polish_color_keep _ _ _ group ColorRole.ToolTipBase (Or.inr (Or.inl rfl)),
    polish_color_keep _ _ _ group ColorRole.ToolTipText (Or.inr (Or.inr rfl)),
    polish_color_keep _ _ _ ColorGroup.Active ColorRole.WindowText (Or.inl (by decide))]
  cases m_Scheme <;> cases group <;> decide

/-! ## Claims on metrics and painting -/

/-- C8: `pixelMetric` is 1 when the metric is `PM_ButtonShiftHorizontal` or
`PM_ButtonShiftVertical`, the option pointer is not null and its state lacks
`State_AutoRaise`; in every other case it is the base class's `pixelMetric`
of the same arguments. -/
theorem pixelMetric_button_shift (base : RDTweakedNativeStyle) (metric : PixelMetric)
    (opt : Option QStyleOption) (widget : Option QWidget) :
    (((metric = PixelMetric.PM_ButtonShiftHorizontal ∨
          metric = PixelMetric.PM_ButtonShiftVertical) ∧
        (∃ o, opt = some o ∧ o.state &&& State_AutoRaise = 0)) →
      pixelMetric base metric opt widget = 1) ∧
    (¬ ((metric = PixelMetric.PM_ButtonShiftHorizontal ∨
          metric = PixelMetric.PM_ButtonShiftVertical) ∧
        (∃ o, opt = some o ∧ o.state &&& State_AutoRaise = 0)) →
      pixelMetric base metric opt widget = base.pixelMetric metric opt widget) := by
  constructor
  · rintro ⟨hm, o, rfl, ho⟩
    simp only [pixelMetric, if_pos hm, if_pos ho]
  · intro h
    unfold pixelMetric
    split
    · rename_i hm
      cases opt with
      | none => rfl
      | some o =>
        have ho : ¬ (o.state &&& State_AutoRaise = 0) := fun ho => h ⟨hm, o, rfl, ho⟩
        simp only [if_neg ho]
    · rfl

/-- C8, at concrete inputs: the shift is 1 for an option without
`State_AutoRaise`, and the base class's 0 for one with it. -/
theorem pixelMetric_button_shift_witness :
    pixelMetric sampleBase PixelMetric.PM_ButtonShiftHorizontal (some (sampleOption 0)) none = 1 ∧
      pixelMetric sampleBase PixelMetric.PM_ButtonShiftVertical
        (some (sampleOption State_AutoRaise)) none = 0 :=
  ⟨(pixelMetric_button_shift sampleBase PixelMetric.PM_ButtonShiftHorizontal
      (some (sampleOption 0)) none).1 ⟨Or.inl rfl, sampleOption 0, rfl, by decide⟩,
   (pixelMetric_button_shift sampleBase PixelMetric.PM_ButtonShiftVertical
      (some (sampleOption State_AutoRaise)) none).2
      (fun h => by
        obtain ⟨_, o, ho, hs⟩ := h
        cases ho
        revert hs
        decide)⟩

/-- C9 as stated fails at the edge of the `int` range.  For the rectangle with
corners (2147483646, 0) and (2147483647, 9) and the shifts (1, 1) that
`pixelMetric` returns, the sunken branch of `drawControl` fills the rectangle
whose left edge has wrapped to -2147483648, which is not within the inset
rectangle; and for the rectangle with corners (0, 0) and (2147483647, 9) the
sunken rectangle has width 2147483645, not the integer
`width - 2 - xshift`. -/
theorem bevel_rects_overflow :
    pixelMetric sampleBase PixelMetric.PM_ButtonShiftHorizontal (some edgeOption) none = 1 ∧
    pixelMetric sampleBase PixelMetric.PM_ButtonShiftVertical (some edgeOption) none = 1 ∧
    filledPaths (drawControl sampleBase ColorScheme.Light ControlElement.CE_PushButtonBevel
        edgeOption samplePainter none).painted =
      [QPainterPath.empty.addRoundedRect ⟨-2147483648, 2, 2147483646, 8⟩ 1 1] ∧
    sunkenBevelRect edgeOption.rect 1 1 = ⟨-2147483648, 2, 2147483646, 8⟩ ∧
    ¬ (sunkenBevelRect edgeOption.rect 1 1).within (edgeOption.rect.adjusted 1 1 (-1) (-1)) ∧
    (sunkenBevelRect ⟨0, 0, 2147483647, 9⟩ 1 1).width = 2147483645 ∧
    (sunkenBevelRect ⟨0, 0, 2147483647, 9⟩ 1 1).width ≠
      QRect.width ⟨0, 0, 2147483647, 9⟩ - 2 - 1 := by
  refine ⟨by decide, by decide, ?_, by decide, by decide, by decide, by decide⟩
  rw [drawControl_bevel, drawPushButtonBevel_painted]
  rfl

/-- C9, amended: for `CE_PushButtonBevel`, `drawControl` fills exactly one path,
the rounded rectangle of `sunkenBevelRect` in the sunken state and of
`raisedBevelRect` otherwise, at the shifts `pixelMetric` returns; and for every
option rectangle and all shifts the sunken rectangle is the raised one
translated by `(xshift, yshift)`, both have, in 32 bit `int` arithmetic, width
`width - 2 - xshift` and height `height - 2 - yshift`, and both lie within the
inset rectangle when the shifts are not negative and shifting the edges of the
inset rectangle does not leave the `int` range. -/
theorem bevel_rects (base : RDTweakedNativeStyle) (m_Scheme : ColorScheme)
    (opt : QStyleOption) (p : QPainter) (widget : Option QWidget)
    (optRect : QRect) (xshift yshift : Int) :
    filledPaths ((drawControl base m_Scheme ControlElement.CE_PushButtonBevel opt p
        widget).painted.drop p.painted.length) =
      [QPainterPath.empty.addRoundedRect
        (if opt.state &&& State_Sunken ≠ 0 then
          sunkenBevelRect opt.rect
            (pixelMetric base PixelMetric.PM_ButtonShiftHorizontal (some opt) widget)
            (pixelMetric base PixelMetric.PM_ButtonShiftVertical (some opt) widget)
        else
          raisedBevelRect opt.rect
            (pixelMetric base PixelMetric.PM_ButtonShiftHorizontal (some opt) widget)
            (pixelMetric base PixelMetric.PM_ButtonShiftVertical (some opt) widget)) 1 1] ∧
    sunkenBevelRect optRect xshift yshift =
      (raisedBevelRect optRect xshift yshift).translated xshift yshift ∧
    (sunkenBevelRect optRect xshift yshift).width = wrapInt (optRect.width - 2 - xshift) ∧
    (raisedBevelRect optRect xshift yshift).width = wrapInt (optRect.width - 2 - xshift) ∧
    (sunkenBevelRect optRect xshift yshift).height = wrapInt (optRect.height - 2 - yshift) ∧
    (raisedBevelRect optRect xshift yshift).height = wrapInt (optRect.height - 2 - yshift) ∧
    (0 ≤ xshift → 0 ≤ yshift →
      (optRect.adjusted 1 1 (-1) (-1)).left + xshift ≤ INT_MAX →
      (optRect.adjusted 1 1 (-1) (-1)).top + yshift ≤ INT_MAX →
      INT_MIN ≤ (optRect.adjusted 1 1 (-1) (-1)).right - xshift →
      INT_MIN ≤ (optRect.adjusted 1 1 (-1) (-1)).bottom - yshift →
      (sunkenBevelRect optRect xshift yshift).within (optRect.adjusted 1 1 (-1) (-1)) ∧
      (raisedBevelRect optRect xshift yshift).within (optRect.adjusted 1 1 (-1) (-1))) := by
  refine ⟨?_, ?_, ?_, ?_, ?_, ?_, ?_⟩
  · rw [drawControl_bevel, drawPushButtonBevel_painted, List.drop_left]
    split <;> rfl
  · simp only [sunkenBevelRect, raisedBevelRect, QRect.adjusted, QRect.setLeft, QRect.setTop,
      QRect.setRight, QRect.setBottom, QRect.left, QRect.top, QRect.right, QRect.bottom,
      QRect.translated, QRect.mk.injEq, wrapInt]
    refine ⟨?_, ?_, ?_, ?_⟩ <;> first | trivial | omega
  · simp only [sunkenBevelRect, QRect.adjusted, QRect.setLeft, QRect.setTop, QRect.left,
      QRect.top, QRect.width, wrapInt]
    omega
  · simp only [raisedBevelRect, QRect.adjusted, QRect.setRight, QRect.setBottom, QRect.right,
      QRect.bottom, QRect.width, wrapInt]
    omega
  · simp only [sunkenBevelRect, QRect.adjusted, QRect.setLeft, QRect.setTop, QRect.left,
      QRect.top, QRect.height, wrapInt]
    omega
  · simp only [raisedBevelRect, QRect.adjusted, QRect.setRight, QRect.setBottom, QRect.right,
      QRect.bottom, QRect.height, wrapInt]
    omega
  · intro hx hy h1 h2 h3 h4
    simp only [sunkenBevelRect, raisedBevelRect, QRect.within, QRect.adjusted, QRect.setLeft,
      QRect.setTop, QRect.setRight, QRect.setBottom, QRect.left, QRect.top, QRect.right,
      QRect.bottom, wrapInt, INT_MAX, INT_MIN] at h1 h2 h3 h4 ⊢
    omega

/-- C9, at a concrete input: the rectangle with corners (0, 0) and (9, 9) and
the shifts (1, 1). -/
theorem bevel_rects_witness :
    sunkenBevelRect ⟨0, 0, 9, 9⟩ 1 1 = ⟨2, 2, 8, 8⟩ ∧
      raisedBevelRect ⟨0, 0, 9, 9⟩ 1 1 = ⟨1, 1, 7, 7⟩ ∧
      (sunkenBevelRect ⟨0, 0, 9, 9⟩ 1 1).within (QRect.adjusted ⟨0, 0, 9, 9⟩ 1 1 (-1) (-1)) ∧
      (raisedBevelRect ⟨0, 0, 9, 9⟩ 1 1).within (QRect.adjusted ⟨0, 0, 9, 9⟩ 1 1 (-1) (-1)) :=
  ⟨by decide, by decide,
    ((bevel_rects sampleBase ColorScheme.Light (sampleOption State_Sunken) samplePainter none
      ⟨0, 0, 9, 9⟩ 1 1).2.2.2.2.2.2 (by decide) (by decide) (by decide) (by decide) (by decide)
      (by decide)).1,
    ((bevel_rects sampleBase ColorScheme.Light (sampleOption State_Sunken) samplePainter none
      ⟨0, 0, 9, 9⟩ 1 1).2.2.2.2.2.2 (by decide) (by decide) (by decide) (by decide) (by decide)
      (by decide)).2⟩

/-- C10: for `CE_PushButtonBevel`, in the sunken and in the raised branch, the
last shape `drawControl` paints is the branch's path translated by (0.5, 0.5),
drawn with the highlight brush and width 2 when the state has
`State_HasFocus`, and otherwise with the brush of `outlineRole` and width 1;
`outlineRole` is `Dark` for the light scheme and `Light` for any other. -/
theorem bevel_outline_pen (base : RDTweakedNativeStyle) (m_Scheme : ColorScheme)
    (opt : QStyleOption) (p : QPainter) (widget : Option QWidget) :
    (drawControl base m_Scheme ControlElement.CE_PushButtonBevel opt p widget).painted.getLast? =
      some (Painted.DrawPath
        ((QPainterPath.empty.addRoundedRect
          (if opt.state &&& State_Sunken ≠ 0 then
            sunkenBevelRect opt.rect
              (pixelMetric base PixelMetric.PM_ButtonShiftHorizontal (some opt) widget)
              (pixelMetric base PixelMetric.PM_ButtonShiftVertical (some opt) widget)
          else
            raisedBevelRect opt.rect
              (pixelMetric base PixelMetric.PM_ButtonShiftHorizontal (some opt) widget)
              (pixelMetric base PixelMetric.PM_ButtonShiftVertical (some opt) widget))
          1 1).translated ⟨1 / 2, 1 / 2⟩)
        ⟨if opt.state &&& State_HasFocus ≠ 0 then
            ⟨opt.palette.brushCurrent ColorRole.Highlight, 2⟩
          else ⟨opt.palette.brushCurrent (outlineRole m_Scheme), 1⟩,
          p.state.brush, true⟩) ∧
    outlineRole m_Scheme =
      (if m_Scheme = ColorScheme.Light then ColorRole.Dark else ColorRole.Light) := by
  refine ⟨?_, rfl⟩
  rw [drawControl_bevel, drawPushButtonBevel_painted]
  split <;> simp

/-- C2: for `CC_ToolButton` without `State_AutoRaise`, `drawComplexControl`
runs `drawControl(CE_PushButtonBevel)` on the option, then
`drawControl(CE_ToolButtonLabel)` on a copy whose rectangle is the
`SC_ToolButton` sub-control rectangle, then `drawPrimitive(PE_IndicatorArrowDown)`
on a copy whose rectangle is the `SC_ToolButtonMenu` sub-control rectangle
exactly when `subControls` has `SC_ToolButtonMenu` or `features` has `HasMenu`,
and the result does not depend on the base class's `drawComplexControl`; in
every other case the result is the base class's `drawComplexControl` of the
same arguments. -/
theorem drawComplexControl_toolButton (base : RDTweakedNativeStyle) (m_Scheme : ColorScheme)
    (control : ComplexControl) (opt : QStyleOption) (p : QPainter) (widget : Option QWidget) :
    ((control = ComplexControl.CC_ToolButton ∧ opt.state &&& State_AutoRaise = 0) →
      drawComplexControl base m_Scheme control opt p widget =
        (if opt.subControls &&& SC_ToolButtonMenu ≠ 0 ∨ opt.features &&& HasMenu ≠ 0 then
          drawPrimitive base PrimitiveElement.PE_IndicatorArrowDown
            { opt with rect := subControlRect base control opt SC_ToolButtonMenu widget }
            (drawControl base m_Scheme ControlElement.CE_ToolButtonLabel
              { opt with rect := subControlRect base control opt SC_ToolButton widget }
              (drawControl base m_Scheme ControlElement.CE_PushButtonBevel opt p widget) widget)
            widget
        else
          drawControl base m_Scheme ControlElement.CE_ToolButtonLabel
            { opt with rect := subControlRect base control opt SC_ToolButton widget }
            (drawControl base m_Scheme ControlElement.CE_PushButtonBevel opt p widget) widget) ∧
      ∀ f, drawComplexControl { base with drawComplexControl := f } m_Scheme control opt p widget =
        drawComplexControl base m_Scheme control opt p widget) ∧
    (¬ (control = ComplexControl.CC_ToolButton ∧ opt.state &&& State_AutoRaise = 0) →
      drawComplexControl base m_Scheme control opt p widget =
        base.drawComplexControl control opt p widget) := by
  refine ⟨fun h => ⟨?_, fun f => ?_⟩, fun h => ?_⟩
  · simp only [drawComplexControl, if_pos h]
  · simp only [drawComplexControl, if_pos h]
    rfl
  · simp only [drawComplexControl, if_neg h]


/-- C2, at concrete inputs: a tool button without `State_AutoRaise` and without
a menu paints the three shapes of the raised bevel over a base style that
paints nothing; with `State_AutoRaise` nothing is painted. -/
theorem drawComplexControl_toolButton_witness :
    (drawComplexControl sampleBase ColorScheme.Light ComplexControl.CC_ToolButton
        (sampleOption 0) samplePainter none).painted.length = 3 ∧
      drawComplexControl sampleBase ColorScheme.Light ComplexControl.CC_ToolButton
        (sampleOption State_AutoRaise) samplePainter none = samplePainter :=
  ⟨((drawComplexControl_toolButton sampleBase ColorScheme.Light ComplexControl.CC_ToolButton
      (sampleOption 0) samplePainter none).1 ⟨rfl, by decide⟩).1 ▸ by decide,
   (drawComplexControl_toolButton sampleBase ColorScheme.Light ComplexControl.CC_ToolButton
      (sampleOption State_AutoRaise) samplePainter none).2 (fun h => absurd h.2 (by decide))⟩

end RDStyle
